import Mathlib

/-!
Verification of the aria2-ws client wrappers (src/method.rs) and of the
core correlation engine described by the design document.

The program issues JSON-RPC calls over one persistent duplex connection.
`src/method.rs` holds the typed wrapper operations; the core (request
registry, reader loop, notification bus, hook manager) is specified by
the design document and modelled here from its words where its code is
not part of the excerpt.
-/

namespace Aria2

/-- A JSON value, mirroring `serde_json::Value` for the fragment the
wrappers produce (all numbers in the wrappers are integers). -/
inductive Json where
  | null
  | bool (b : Bool)
  | num (n : Int)
  | str (s : String)
  | arr (xs : List Json)
  | obj (fields : List (String × Json))
deriving Repr

/-- The client error type (`Error` in the crate): JSON (de)serialization
failure, a protocol-level remote error, a timeout, or connection closed. -/
inductive Error where
  | jsonDecode
  | remote (code : Int) (msg : String)
  | timedOut
  | connClosed
deriving Repr, DecidableEq

/-- An outbound call envelope: method name, ordered parameter list, and
the caller-specified timeout (`None` = registry-wide default). -/
structure Request where
  method : String
  params : List Json
  timeout : Option Nat
deriving Repr

/-- `TaskHooks`: optional on-complete and on-error callbacks, identified
by abstract tokens. -/
structure TaskHooks where
  on_complete : Option Nat
  on_error : Option Nat
deriving Repr, DecidableEq

/-- Observable effects a wrapper performs against the core: issuing one
call through the call primitive, creating a notification subscription,
or registering hooks for a gid. -/
inductive Effect where
  | call (r : Request)
  | subscribeNotifications
  | registerHooks (gid : String) (h : TaskHooks)
deriving Repr

/-- Outcome of running a wrapper body: its returned result and the list
of effects it performed against the core, in order. -/
structure WrapperRun (α : Type) where
  result : Except Error α
  effects : List Effect

/-- The environment a wrapper runs against: what the core's call
primitive returns for each issued request. -/
def Oracle : Type := Request → Except Error Json

/-- Modelled from the spec: `utils::PushExt::push_some` (utils.rs is not
part of the excerpt). The wrappers "build a method name and a parameter
list"; `push_some` appends the serialized value when it is supplied and
appends nothing otherwise. -/
def pushSome (params : List Json) (x : Option Json) : List Json :=
  match x with
  | none => params
  | some v => params ++ [v]

/-- Modelled from the spec: `utils::PushExt::push_else` (utils.rs is not
part of the excerpt). Appends the serialized value when supplied, and the
given placeholder value otherwise, keeping later arguments at their fixed
protocol positions. -/
def pushElse (params : List Json) (x : Option Json) (dflt : Json) : List Json :=
  params ++ [x.getD dflt]

/-- The standard base64 alphabet used by `base64::encode`. -/
def base64Alphabet : List Char :=
  "ABCDEFGHIJKLMNOPQRSTUVWXYZabcdefghijklmnopqrstuvwxyz0123456789+/".toList

def base64Digit (n : Nat) : Char :=
  base64Alphabet.getD n 'A'

/-- Standard base64 of a byte sequence (with `=` padding), three input
bytes to four output characters. -/
def base64Chunks : List Nat → List Char
  | [] => []
  | [a] => [base64Digit (a / 4), base64Digit (a % 4 * 16), '=', '=']
  | [a, b] =>
      [base64Digit (a / 4), base64Digit (a % 4 * 16 + b / 16),
       base64Digit (b % 16 * 4), '=']
  | a :: b :: c :: rest =>
      base64Digit (a / 4) :: base64Digit (a % 4 * 16 + b / 16) ::
        base64Digit (b % 16 * 4 + c / 64) :: base64Digit (c % 64) ::
        base64Chunks rest

def base64Encode (bytes : List Nat) : String :=
  String.mk (base64Chunks bytes)

/-- Decoding a reply payload as a `String` (`call_and_subscribe::<String>`). -/
def decodeString : Json → Option String
  | .str s => some s
  | _ => none

/-- Decoding a reply payload as a JSON object (`Map<String, Value>`). -/
def decodeObj : Json → Option (List (String × Json))
  | .obj fields => some fields
  | _ => none

/-- Decoding a reply payload as a list of JSON objects
(`Vec<Map<String, Value>>`). -/
def decodeObjList : Json → Option (List (List (String × Json)))
  | .arr xs => xs.mapM decodeObj
  | _ => none

/-- Decoding a reply payload as a two-integer list into an ordered pair,
as serde does for `(i32, i32)`: the pair keeps the array's order. -/
def decodeIntPair : Json → Option (Int × Int)
  | .arr [.num a, .num b] => some (a, b)
  | _ => none

/-- Modelled from the spec: `Client::set_hooks` (whose code is not part
of the excerpt) "optionally calls Hook Manager's register operation":
it registers the hooks under the given gid when they are supplied and
does nothing otherwise. -/
def set_hooks (gid : String) (hooks : Option TaskHooks) : List Effect :=
  match hooks with
  | none => []
  | some h => [.registerHooks gid h]

/-- Modelled from the spec: the core's single call primitive
(`InnerClient::call_and_subscribe`, whose code is not part of the
excerpt). Per the design document it is a plain call despite its source
name — it issues one request through the request registry, awaits the
correlated result, and decodes the payload into the wrapper's typed
result; it creates no notification subscription. -/
def call_and_subscribe (dec : Json → Option α) (method : String)
    (params : List Json) (timeout : Option Nat) (oracle : Oracle) :
    WrapperRun α :=
  match oracle ⟨method, params, timeout⟩ with
  | .error e => ⟨.error e, [.call ⟨method, params, timeout⟩]⟩
  | .ok v =>
    match dec v with
    | none => ⟨.error .jsonDecode, [.call ⟨method, params, timeout⟩]⟩
    | some a => ⟨.ok a, [.call ⟨method, params, timeout⟩]⟩

/-- The tail of the `add_*` wrapper bodies: on a successful gid, register
the hooks under that gid after the call; on failure, return the error
unchanged and register nothing. -/
def finishAdd (r : WrapperRun String) (hooks : Option TaskHooks) :
    WrapperRun String :=
  match r.result with
  | .error e => ⟨.error e, r.effects⟩
  | .ok gid => ⟨.ok gid, r.effects ++ set_hooks gid hooks⟩

/-- The tail of the unit-returning wrapper bodies: discard the decoded
string reply and return unit, keeping any failure unchanged. -/
def unitOf (r : WrapperRun String) : WrapperRun Unit :=
  ⟨r.result.map fun _ => (), r.effects⟩

/-- Parameter list built by `Client::add_uri`. -/
def addUriParams (uris : List String) (options : Option Json)
    (position : Option Nat) : List Json :=
  pushSome (pushElse [Json.arr (uris.map Json.str)] options (Json.obj []))
    (position.map fun p => Json.num (Int.ofNat p))

/-- `Client::add_uri`: builds the parameter list, issues `addUri`, and on
success registers the hooks under the returned gid. -/
def add_uri (uris : List String) (options : Option Json)
    (position : Option Nat) (hooks : Option TaskHooks) (oracle : Oracle) :
    WrapperRun String :=
  finishAdd
    (call_and_subscribe decodeString "addUri"
      (addUriParams uris options position) none oracle)
    hooks

/-- Parameter list built by `Client::add_torrent`. -/
def addTorrentParams (torrent : List Nat) (uris : Option (List String))
    (options : Option Json) (position : Option Nat) : List Json :=
  pushSome
    (pushElse
      (pushElse [Json.str (base64Encode torrent)]
        (uris.map fun us => Json.arr (us.map Json.str)) (Json.arr []))
      options (Json.obj []))
    (position.map fun p => Json.num (Int.ofNat p))

/-- `Client::add_torrent`: base64-encodes the torrent bytes, builds the
parameter list, issues `addTorrent`, and on success registers the hooks
under the returned gid. -/
def add_torrent (torrent : List Nat) (uris : Option (List String))
    (options : Option Json) (position : Option Nat)
    (hooks : Option TaskHooks) (oracle : Oracle) : WrapperRun String :=
  finishAdd
    (call_and_subscribe decodeString "addTorrent"
      (addTorrentParams torrent uris options position) none oracle)
    hooks

/-- Parameter list built by `Client::add_metalink`. -/
def addMetalinkParams (metalink : List Nat) (options : Option Json)
    (position : Option Nat) : List Json :=
  pushSome
    (pushElse [Json.str (base64Encode metalink)] options (Json.obj []))
    (position.map fun p => Json.num (Int.ofNat p))

/-- `Client::add_metalink`: base64-encodes the metalink bytes, builds the
parameter list, issues `addMetalink`, and on success registers the hooks
under the returned gid. -/
def add_metalink (metalink : List Nat) (options : Option Json)
    (position : Option Nat) (hooks : Option TaskHooks) (oracle : Oracle) :
    WrapperRun String :=
  finishAdd
    (call_and_subscribe decodeString "addMetalink"
      (addMetalinkParams metalink options position) none oracle)
    hooks

/-- `Client::get_version`: a plain `getVersion` call with no parameters
and no caller timeout, decoded into `response::Version` (the decoder is
a parameter since `response.rs` is not part of the excerpt). -/
def get_version (dec : Json → Option α) (oracle : Oracle) : WrapperRun α :=
  call_and_subscribe dec "getVersion" [] none oracle

/-- `Client::do_gid`: issues `method` with the single parameter `gid`,
decodes the reply as a `String`, discards it and returns unit. -/
def do_gid (method : String) (gid : String) (timeout : Option Nat)
    (oracle : Oracle) : WrapperRun Unit :=
  unitOf (call_and_subscribe decodeString method [Json.str gid] timeout oracle)

/-- `Client::remove`: `do_gid` with the client's extended timeout. -/
def remove (extended_timeout : Nat) (gid : String) (oracle : Oracle) :
    WrapperRun Unit :=
  do_gid "remove" gid (some extended_timeout) oracle

/-- `Client::force_remove`: `do_gid` with no caller timeout. -/
def force_remove (gid : String) (oracle : Oracle) : WrapperRun Unit :=
  do_gid "forceRemove" gid none oracle

/-- `Client::pause`: `do_gid` with the client's extended timeout. -/
def pause (extended_timeout : Nat) (gid : String) (oracle : Oracle) :
    WrapperRun Unit :=
  do_gid "pause" gid (some extended_timeout) oracle

/-- `Client::pause_all`: `pauseAll` with the extended timeout; reply
decoded as a `String` and discarded. -/
def pause_all (extended_timeout : Nat) (oracle : Oracle) : WrapperRun Unit :=
  unitOf
    (call_and_subscribe decodeString "pauseAll" [] (some extended_timeout) oracle)

/-- `Client::force_pause`: `do_gid` with no caller timeout. -/
def force_pause (gid : String) (oracle : Oracle) : WrapperRun Unit :=
  do_gid "forcePause" gid none oracle

/-- `Client::force_pause_all`: no caller timeout; reply decoded as a
`String` and discarded. -/
def force_pause_all (oracle : Oracle) : WrapperRun Unit :=
  unitOf (call_and_subscribe decodeString "forcePauseAll" [] none oracle)

/-- `Client::unpause`: `do_gid` with no caller timeout. -/
def unpause (gid : String) (oracle : Oracle) : WrapperRun Unit :=
  do_gid "unpause" gid none oracle

/-- `Client::unpause_all`: no caller timeout; reply decoded as a
`String` and discarded. -/
def unpause_all (oracle : Oracle) : WrapperRun Unit :=
  unitOf (call_and_subscribe decodeString "unpauseAll" [] none oracle)

/-- `Client::custom_tell_status`: `tellStatus` with the gid and the
optional key list, decoded as a raw JSON object. -/
def custom_tell_status (gid : String) (keys : Option (List String))
    (oracle : Oracle) : WrapperRun (List (String × Json)) :=
  call_and_subscribe decodeObj "tellStatus"
    (pushSome [Json.str gid] (keys.map fun ks => Json.arr (ks.map Json.str)))
    none oracle

/-- `Client::tell_status`: `tellStatus` with the gid only, decoded into
`response::Status`. -/
def tell_status (dec : Json → Option α) (gid : String) (oracle : Oracle) :
    WrapperRun α :=
  call_and_subscribe dec "tellStatus" [Json.str gid] none oracle

/-- `Client::get_uris`. -/
def get_uris (dec : Json → Option α) (gid : String) (oracle : Oracle) :
    WrapperRun α :=
  call_and_subscribe dec "getUris" [Json.str gid] none oracle

/-- `Client::get_files`. -/
def get_files (dec : Json → Option α) (gid : String) (oracle : Oracle) :
    WrapperRun α :=
  call_and_subscribe dec "getFiles" [Json.str gid] none oracle

/-- `Client::get_peers`. -/
def get_peers (dec : Json → Option α) (gid : String) (oracle : Oracle) :
    WrapperRun α :=
  call_and_subscribe dec "getPeers" [Json.str gid] none oracle

/-- `Client::get_servers`. -/
def get_servers (dec : Json → Option α) (gid : String) (oracle : Oracle) :
    WrapperRun α :=
  call_and_subscribe dec "getServers" [Json.str gid] none oracle

/-- `Client::tell_active`: `tellActive` with no parameters. -/
def tell_active (dec : Json → Option α) (oracle : Oracle) : WrapperRun α :=
  call_and_subscribe dec "tellActive" [] none oracle

/-- `Client::tell_waiting`: `tellWaiting` with offset and num. -/
def tell_waiting (dec : Json → Option α) (offset num : Int)
    (oracle : Oracle) : WrapperRun α :=
  call_and_subscribe dec "tellWaiting" [Json.num offset, Json.num num]
    none oracle

/-- `Client::tell_stopped`: `tellStopped` with offset and num. -/
def tell_stopped (dec : Json → Option α) (offset num : Int)
    (oracle : Oracle) : WrapperRun α :=
  call_and_subscribe dec "tellStopped" [Json.num offset, Json.num num]
    none oracle

/-- `Client::custom_tell_active`: `tellActive` with only the optional
key list. -/
def custom_tell_active (keys : Option (List String)) (oracle : Oracle) :
    WrapperRun (List (List (String × Json))) :=
  call_and_subscribe decodeObjList "tellActive"
    (pushSome [] (keys.map fun ks => Json.arr (ks.map Json.str))) none oracle

/-- `InnerClient::custom_tell_multi`: offset, num, then the optional key
list, decoded as a list of raw JSON objects. -/
def custom_tell_multi (method : String) (offset num : Int)
    (keys : Option (List String)) (oracle : Oracle) :
    WrapperRun (List (List (String × Json))) :=
  call_and_subscribe decodeObjList method
    (pushSome [Json.num offset, Json.num num]
      (keys.map fun ks => Json.arr (ks.map Json.str)))
    none oracle

/-- `Client::custom_tell_waiting`: delegates to `custom_tell_multi` with
method `tellWaiting`. -/
def custom_tell_waiting (offset num : Int) (keys : Option (List String))
    (oracle : Oracle) : WrapperRun (List (List (String × Json))) :=
  custom_tell_multi "tellWaiting" offset num keys oracle

/-- `InnerClient::custom_tell_stopped`: delegates to `custom_tell_multi`
with method `tellStopped`. -/
def inner_custom_tell_stopped (offset num : Int)
    (keys : Option (List String)) (oracle : Oracle) :
    WrapperRun (List (List (String × Json))) :=
  custom_tell_multi "tellStopped" offset num keys oracle

/-- `Client::custom_tell_stopped`: delegates to the inner client. -/
def custom_tell_stopped (offset num : Int) (keys : Option (List String))
    (oracle : Oracle) : WrapperRun (List (List (String × Json))) :=
  inner_custom_tell_stopped offset num keys oracle

/-- The `how` parameter of `changePosition`, serialized as the variant
name. -/
inductive PositionHow where
  | POS_SET
  | POS_CUR
  | POS_END
deriving Repr, DecidableEq

def PositionHow.toJson : PositionHow → Json
  | .POS_SET => .str "POS_SET"
  | .POS_CUR => .str "POS_CUR"
  | .POS_END => .str "POS_END"

/-- `Client::change_position`. -/
def change_position (gid : String) (pos : Int) (how : PositionHow)
    (oracle : Oracle) : WrapperRun Int :=
  call_and_subscribe (fun v => match v with | .num n => some n | _ => none)
    "changePosition" [Json.str gid, Json.num pos, how.toJson] none oracle

/-- Parameter list built by `Client::change_uri`. -/
def changeUriParams (gid : String) (file_index : Int)
    (del_uris add_uris : List String) (position : Option Int) : List Json :=
  pushSome
    [Json.str gid, Json.num file_index,
     Json.arr (del_uris.map Json.str), Json.arr (add_uris.map Json.str)]
    (position.map Json.num)

/-- `Client::change_uri`: `changeUri` with gid, file index, URIs to
delete, URIs to add and the optional position; the reply is decoded as
an ordered integer pair. -/
def change_uri (gid : String) (file_index : Int)
    (del_uris add_uris : List String) (position : Option Int)
    (oracle : Oracle) : WrapperRun (Int × Int) :=
  call_and_subscribe decodeIntPair "changeUri"
    (changeUriParams gid file_index del_uris add_uris position) none oracle

/-- `Client::get_option`. -/
def get_option (dec : Json → Option α) (gid : String) (oracle : Oracle) :
    WrapperRun α :=
  call_and_subscribe dec "getOption" [Json.str gid] none oracle

/-- Decoding a reply payload as the unit type, as serde does for `()`. -/
def decodeUnit : Json → Option Unit
  | .null => some ()
  | _ => none

/-- `Client::change_option`: `changeOption` with the gid and the
serialized options. -/
def change_option (gid : String) (options : Json) (oracle : Oracle) :
    WrapperRun Unit :=
  call_and_subscribe decodeUnit "changeOption" [Json.str gid, options]
    none oracle

/-- `Client::get_global_option`. -/
def get_global_option (dec : Json → Option α) (oracle : Oracle) :
    WrapperRun α :=
  call_and_subscribe dec "getGlobalOption" [] none oracle

/-- `Client::change_global_option`. -/
def change_global_option (options : Json) (oracle : Oracle) :
    WrapperRun Unit :=
  call_and_subscribe decodeUnit "changeGlobalOption" [options] none oracle

/-- `Client::get_global_stat`. -/
def get_global_stat (dec : Json → Option α) (oracle : Oracle) :
    WrapperRun α :=
  call_and_subscribe dec "getGlobalStat" [] none oracle

/-- `Client::purge_download_result`: no caller timeout; reply decoded as
a `String` and discarded. -/
def purge_download_result (oracle : Oracle) : WrapperRun Unit :=
  unitOf (call_and_subscribe decodeString "purgeDownloadResult" [] none oracle)

/-- `Client::remove_download_result`: no caller timeout; reply decoded
as a `String` and discarded. -/
def remove_download_result (gid : String) (oracle : Oracle) :
    WrapperRun Unit :=
  unitOf
    (call_and_subscribe decodeString "removeDownloadResult" [Json.str gid]
      none oracle)

/-- `Client::get_session_info`. -/
def get_session_info (dec : Json → Option α) (oracle : Oracle) :
    WrapperRun α :=
  call_and_subscribe dec "getSessionInfo" [] none oracle

/-- `Client::shutdown`: `shutdown` with the extended timeout; reply
decoded as a `String` and discarded. -/
def shutdown (extended_timeout : Nat) (oracle : Oracle) : WrapperRun Unit :=
  unitOf
    (call_and_subscribe decodeString "shutdown" [] (some extended_timeout) oracle)

/-- `Client::force_shutdown`: no caller timeout; reply decoded as a
`String` and discarded. -/
def force_shutdown (oracle : Oracle) : WrapperRun Unit :=
  unitOf (call_and_subscribe decodeString "forceShutdown" [] none oracle)

/-- `Client::save_session`: no caller timeout; reply decoded as a
`String` and discarded. -/
def save_session (oracle : Oracle) : WrapperRun Unit :=
  unitOf (call_and_subscribe decodeString "saveSession" [] none oracle)

/-- `Client::subscribe_notifications`: the separate public subscription
primitive; it performs no call, only creates a subscription. -/
def subscribe_notifications : List Effect :=
  [Effect.subscribeNotifications]

/-! ## The request registry (spec §4.1), modelled from the spec -/

/-- The terminal outcome of a pending call: a success payload, a typed
remote-error failure, a timeout failure, or a connection-closed failure. -/
inductive Outcome where
  | reply (v : Json)
  | remoteErr (code : Int) (msg : String)
  | timedOut
  | closed
deriving Repr

/-- Modelled from the spec: the request registry's state (`lib.rs` is
not part of the excerpt) — a monotonically incrementing identifier
counter, the set of identifiers of still-pending calls, and the log of
resolutions, newest first. -/
structure RegState where
  nextId : Nat
  pending : List Nat
  resolved : List (Nat × Outcome)
deriving Repr

def initReg : RegState := ⟨0, [], []⟩

/-- Events observed by the registry: a caller issuing a call, a reply
(success or protocol-level error) routed from the reader loop, a
per-call timeout firing, or the connection transitioning to Closed. -/
inductive RegEvent where
  | issue
  | reply (id : Nat) (v : Json)
  | replyErr (id : Nat) (code : Int) (msg : String)
  | timeoutFire (id : Nat)
  | close
deriving Repr

/-- Modelled from the spec: resolving one identifier. Resolution happens
only for a registered pending identifier — it is evicted and its outcome
recorded; a resolution event for an unknown identifier is silently
discarded and leaves the whole state unchanged. -/
def resolveId (s : RegState) (i : Nat) (o : Outcome) : RegState :=
  if i ∈ s.pending then
    ⟨s.nextId, s.pending.filter (fun j => j ≠ i), (i, o) :: s.resolved⟩
  else s

/-- Modelled from the spec: one registry transition. `issue` allocates a
fresh identifier from the counter and registers a pending call; a reply
or timeout resolves exactly its own identifier; `close` resolves every
still-pending call with the connection-closed failure. -/
def regStep (s : RegState) (e : RegEvent) : RegState :=
  match e with
  | .issue => ⟨s.nextId + 1, s.nextId :: s.pending, s.resolved⟩
  | .reply i v => resolveId s i (.reply v)
  | .replyErr i c m => resolveId s i (.remoteErr c m)
  | .timeoutFire i => resolveId s i .timedOut
  | .close => ⟨s.nextId, [], s.pending.map (fun i => (i, Outcome.closed)) ++ s.resolved⟩

def regRun (es : List RegEvent) (s : RegState) : RegState :=
  es.foldl regStep s

/-- The registry invariant: all known identifiers are below the counter,
pending identifiers are distinct, resolved identifiers are distinct, and
no identifier is both pending and resolved. -/
def RegInv (s : RegState) : Prop :=
  (∀ i ∈ s.pending, i < s.nextId) ∧
  (∀ p ∈ s.resolved, p.1 < s.nextId) ∧
  s.pending.Nodup ∧
  (s.resolved.map Prod.fst).Nodup ∧
  (∀ i ∈ s.pending, i ∉ s.resolved.map Prod.fst)

/-- The outcome recorded for identifier `i` is the one carried by an
event bearing identifier `i` itself (or the connection closing). -/
def outcomeFrom (es : List RegEvent) (i : Nat) : Outcome → Prop
  | .reply v => RegEvent.reply i v ∈ es
  | .remoteErr c m => RegEvent.replyErr i c m ∈ es
  | .timedOut => RegEvent.timeoutFire i ∈ es
  | .closed => RegEvent.close ∈ es

/-! ## The reader loop (spec §4.2), modelled from the spec -/

/-- A notification: method name and structured parameter payload. -/
structure Notification where
  method : String
  params : Json
deriving Repr

/-- An inbound message after decoding: a reply envelope with an
identifier, a notification envelope with a method name, or a malformed
message. -/
inductive InMsg where
  | replyMsg (id : Nat) (payload : Json)
  | notifMsg (method : String) (params : Json)
  | malformed
deriving Repr

/-- Modelled from the spec: one reader-loop step (`lib.rs` is not part
of the excerpt). A reply envelope is routed to the registry (silently
discarded there when its identifier is unknown, never published as a
notification); a notification envelope is published to the bus; a
malformed message is dropped. Returns the new registry state and the
notifications published by this step. -/
def readerStep (s : RegState) (m : InMsg) : RegState × List Notification :=
  match m with
  | .replyMsg i v => (resolveId s i (.reply v), [])
  | .notifMsg me p => (s, [⟨me, p⟩])
  | .malformed => (s, [])

/-! ## The hook manager (spec §4.4), modelled from the spec -/

/-- Success-class terminal event method names (task finished). -/
def successMethods : List String :=
  ["aria2.onDownloadComplete", "aria2.onBtDownloadComplete"]

/-- Error-class terminal event method names (task error / stopped with
error). -/
def errorMethods : List String :=
  ["aria2.onDownloadError", "aria2.onDownloadStop"]

/-- The task identifier carried by a hookable notification's payload:
the `gid` field of the first object in the parameter list. -/
def notifGid : Json → Option String
  | .arr (.obj fields :: _) =>
      match fields.lookup "gid" with
      | some (.str g) => some g
      | _ => none
  | _ => none

/-- Hook-manager state: the live registrations keyed by task identifier,
and the log of callback invocations (task identifier and callback
token), oldest first. -/
structure HookState where
  hooks : List (String × TaskHooks)
  fired : List (String × Nat)
deriving Repr

/-- Modelled from the spec: one hook-manager step on an observed
notification (`lib.rs` is not part of the excerpt). If the method name
is terminal and the payload's task identifier has a live registration,
the matching callback (on-complete for success-class, on-error for
error-class) is invoked if present and the registration is removed;
otherwise nothing changes. -/
def hookStep (s : HookState) (n : Notification) : HookState :=
  match notifGid n.params with
  | none => s
  | some g =>
    match s.hooks.lookup g with
    | none => s
    | some h =>
      if n.method ∈ successMethods then
        ⟨s.hooks.filter (fun p => p.1 ≠ g),
         s.fired ++ (match h.on_complete with
                     | some c => [(g, c)]
                     | none => [])⟩
      else if n.method ∈ errorMethods then
        ⟨s.hooks.filter (fun p => p.1 ≠ g),
         s.fired ++ (match h.on_error with
                     | some c => [(g, c)]
                     | none => [])⟩
      else s

def hookRun (ns : List Notification) (s : HookState) : HookState :=
  ns.foldl hookStep s

/-- Number of live registrations for a task identifier. -/
def liveCount (g : String) (s : HookState) : Nat :=
  (s.hooks.filter (fun p => p.1 = g)).length

/-- Number of callback invocations recorded for a task identifier. -/
def firedCount (g : String) (s : HookState) : Nat :=
  (s.fired.filter (fun p => p.1 = g)).length

/-! ## Observation helpers on effect traces -/

/-- The zero-or-one-element list an optional value contributes to a
parameter list. -/
def optTail (x : Option Json) : List Json :=
  match x with
  | some v => [v]
  | none => []

/-- The requests a wrapper handed to the core's call primitive, in
order. -/
def issuedRequests (effs : List Effect) : List Request :=
  effs.filterMap fun e =>
    match e with
    | .call r => some r
    | _ => none

/-- How many calls a wrapper issued. -/
def numCalls (effs : List Effect) : Nat :=
  (issuedRequests effs).length

/-- How many notification subscriptions a wrapper created. -/
def numSubs (effs : List Effect) : Nat :=
  (effs.filter fun e =>
    match e with
    | .subscribeNotifications => true
    | _ => false).length

/-- A trace that performs exactly one call and creates no notification
subscription. -/
def oneCallNoSub (effs : List Effect) : Prop :=
  numCalls effs = 1 ∧ numSubs effs = 0

/-! ## Shared lemmas -/

theorem call_and_subscribe_effects (dec : Json → Option α) (m : String)
    (p : List Json) (t : Option Nat) (o : Oracle) :
    (call_and_subscribe dec m p t o).effects = [Effect.call ⟨m, p, t⟩] := by
  unfold call_and_subscribe
  split
  · rfl
  · split <;> rfl

theorem issuedRequests_append (a b : List Effect) :
    issuedRequests (a ++ b) = issuedRequests a ++ issuedRequests b := by
  simp [issuedRequests]

theorem issuedRequests_set_hooks (g : String) (h : Option TaskHooks) :
    issuedRequests (set_hooks g h) = [] := by
  cases h <;> rfl

theorem numSubs_set_hooks (g : String) (h : Option TaskHooks) :
    numSubs (set_hooks g h) = 0 := by
  cases h <;> rfl

theorem finishAdd_issued (r : WrapperRun String) (hooks : Option TaskHooks) :
    issuedRequests (finishAdd r hooks).effects = issuedRequests r.effects := by
  unfold finishAdd
  cases hr : r.result with
  | error e => rfl
  | ok gid => simp [issuedRequests_append, issuedRequests_set_hooks]

theorem numSubs_append (a b : List Effect) :
    numSubs (a ++ b) = numSubs a + numSubs b := by
  simp [numSubs]

theorem finishAdd_numSubs (r : WrapperRun String) (hooks : Option TaskHooks) :
    numSubs (finishAdd r hooks).effects = numSubs r.effects := by
  unfold finishAdd
  cases hr : r.result with
  | error e => rfl
  | ok gid => simp [numSubs_append, numSubs_set_hooks]

theorem oneCallNoSub_call (dec : Json → Option α) (m : String)
    (p : List Json) (t : Option Nat) (o : Oracle) :
    oneCallNoSub (call_and_subscribe dec m p t o).effects := by
  unfold oneCallNoSub numCalls numSubs
  rw [call_and_subscribe_effects]
  exact ⟨rfl, rfl⟩

/-! ## Claim theorems -/

/-- C2: for every invocation of `add_uri`, `add_torrent` or
`add_metalink`, the parameter list handed to the call primitive encodes
an omitted options argument as the placeholder object `{}` and omitted
torrent uris as the placeholder array `[]`, appends `position` only when
it is supplied, and for `add_torrent`/`add_metalink` passes the base64
encoding of the input bytes as the first parameter, so every supplied
argument occupies its fixed protocol position. -/
theorem c2_add_params_fixed_positions (uris : List String)
    (torrent metalink : List Nat) (turis : Option (List String))
    (options : Option Json) (position : Option Nat) (hooks : Option TaskHooks)
    (oracle : Oracle) :
    addUriParams uris options position
      = [Json.arr (uris.map Json.str), options.getD (Json.obj [])]
        ++ optTail (position.map fun p => Json.num (Int.ofNat p))
    ∧ addTorrentParams torrent turis options position
      = [Json.str (base64Encode torrent),
         (turis.map fun us => Json.arr (us.map Json.str)).getD (Json.arr []),
         options.getD (Json.obj [])]
        ++ optTail (position.map fun p => Json.num (Int.ofNat p))
    ∧ addMetalinkParams metalink options position
      = [Json.str (base64Encode metalink), options.getD (Json.obj [])]
        ++ optTail (position.map fun p => Json.num (Int.ofNat p))
    ∧ issuedRequests (add_uri uris options position hooks oracle).effects
      = [⟨"addUri", addUriParams uris options position, none⟩]
    ∧ issuedRequests (add_torrent torrent turis options position hooks oracle).effects
      = [⟨"addTorrent", addTorrentParams torrent turis options position, none⟩]
    ∧ issuedRequests (add_metalink metalink options position hooks oracle).effects
      = [⟨"addMetalink", addMetalinkParams metalink options position, none⟩] := by
  refine ⟨?_, ?_, ?_, ?_, ?_, ?_⟩
  · cases options <;> cases position <;> rfl
  · cases turis <;> cases options <;> cases position <;> rfl
  · cases options <;> cases position <;> rfl
  · rw [add_uri, finishAdd_issued, call_and_subscribe_effects]; rfl
  · rw [add_torrent, finishAdd_issued, call_and_subscribe_effects]; rfl
  · rw [add_metalink, finishAdd_issued, call_and_subscribe_effects]; rfl

theorem issued_call (dec : Json → Option α) (m : String) (p : List Json)
    (t : Option Nat) (o : Oracle) :
    issuedRequests (call_and_subscribe dec m p t o).effects = [⟨m, p, t⟩] := by
  rw [call_and_subscribe_effects]; rfl

theorem unitOf_issued (r : WrapperRun String) :
    issuedRequests (unitOf r).effects = issuedRequests r.effects := rfl

/-- C6: `remove`, `pause`, `pause_all` and `shutdown` issue their call
with the client's extended timeout as the caller-specified deadline,
while `force_remove`, `force_pause`, `force_pause_all`,
`force_shutdown`, `unpause` and all query wrappers pass no timeout, so
the registry-wide default applies to them. -/
theorem c6_timeouts (ext : Nat) (gid : String) (offset num pos : Int)
    (how : PositionHow) (keys : Option (List String)) (α : Type)
    (dec : Json → Option α) (o : Oracle) :
    (issuedRequests (remove ext gid o).effects).map Request.timeout = [some ext]
    ∧ (issuedRequests (pause ext gid o).effects).map Request.timeout = [some ext]
    ∧ (issuedRequests (pause_all ext o).effects).map Request.timeout = [some ext]
    ∧ (issuedRequests (shutdown ext o).effects).map Request.timeout = [some ext]
    ∧ (issuedRequests (force_remove gid o).effects).map Request.timeout = [none]
    ∧ (issuedRequests (force_pause gid o).effects).map Request.timeout = [none]
    ∧ (issuedRequests (force_pause_all o).effects).map Request.timeout = [none]
    ∧ (issuedRequests (force_shutdown o).effects).map Request.timeout = [none]
    ∧ (issuedRequests (unpause gid o).effects).map Request.timeout = [none]
    ∧ (issuedRequests (get_version dec o).effects).map Request.timeout = [none]
    ∧ (issuedRequests (tell_status dec gid o).effects).map Request.timeout = [none]
    ∧ (issuedRequests (custom_tell_status gid keys o).effects).map Request.timeout = [none]
    ∧ (issuedRequests (get_uris dec gid o).effects).map Request.timeout = [none]
    ∧ (issuedRequests (get_files dec gid o).effects).map Request.timeout = [none]
    ∧ (issuedRequests (get_peers dec gid o).effects).map Request.timeout = [none]
    ∧ (issuedRequests (get_servers dec gid o).effects).map Request.timeout = [none]
    ∧ (issuedRequests (tell_active dec o).effects).map Request.timeout = [none]
    ∧ (issuedRequests (tell_waiting dec offset num o).effects).map Request.timeout = [none]
    ∧ (issuedRequests (tell_stopped dec offset num o).effects).map Request.timeout = [none]
    ∧ (issuedRequests (custom_tell_active keys o).effects).map Request.timeout = [none]
    ∧ (issuedRequests (custom_tell_waiting offset num keys o).effects).map Request.timeout = [none]
    ∧ (issuedRequests (custom_tell_stopped offset num keys o).effects).map Request.timeout = [none]
    ∧ (issuedRequests (change_position gid pos how o).effects).map Request.timeout = [none]
    ∧ (issuedRequests (get_option dec gid o).effects).map Request.timeout = [none]
    ∧ (issuedRequests (get_global_option dec o).effects).map Request.timeout = [none]
    ∧ (issuedRequests (get_global_stat dec o).effects).map Request.timeout = [none]
    ∧ (issuedRequests (get_session_info dec o).effects).map Request.timeout = [none] := by
  refine ⟨?_, ?_, ?_, ?_, ?_, ?_, ?_, ?_, ?_, ?_, ?_, ?_, ?_, ?_, ?_, ?_, ?_,
    ?_, ?_, ?_, ?_, ?_, ?_, ?_, ?_, ?_, ?_⟩ <;>
    simp only [remove, pause, pause_all, shutdown, force_remove, force_pause,
      force_pause_all, force_shutdown, unpause, do_gid, unitOf, get_version,
      tell_status, custom_tell_status, get_uris, get_files, get_peers,
      get_servers, tell_active, tell_waiting, tell_stopped, custom_tell_active,
      custom_tell_waiting, custom_tell_stopped, inner_custom_tell_stopped,
      custom_tell_multi, change_position, get_option, get_global_option,
      get_global_stat, get_session_info, issued_call, List.map_cons,
      List.map_nil]

/-- C8: `tell_status gid` and `custom_tell_status gid none` issue the
identical request (method `tellStatus`, parameter list `[gid]`, no
timeout); likewise `tell_stopped offset num` and
`custom_tell_stopped offset num none`, and `tell_active` and
`custom_tell_active none` — each pair differs only in how the reply
payload is decoded. -/
theorem c8_custom_tell_same_requests (gid : String) (offset num : Int)
    (α : Type) (dec : Json → Option α) (o : Oracle) :
    issuedRequests (tell_status dec gid o).effects
      = issuedRequests (custom_tell_status gid none o).effects
    ∧ issuedRequests (tell_status dec gid o).effects
      = [⟨"tellStatus", [Json.str gid], none⟩]
    ∧ issuedRequests (tell_stopped dec offset num o).effects
      = issuedRequests (custom_tell_stopped offset num none o).effects
    ∧ issuedRequests (tell_stopped dec offset num o).effects
      = [⟨"tellStopped", [Json.num offset, Json.num num], none⟩]
    ∧ issuedRequests (tell_active dec o).effects
      = issuedRequests (custom_tell_active none o).effects
    ∧ issuedRequests (tell_active dec o).effects
      = [⟨"tellActive", [], none⟩] := by
  refine ⟨?_, ?_, ?_, ?_, ?_, ?_⟩ <;>
    · simp only [tell_status, custom_tell_status, tell_stopped,
        custom_tell_stopped, inner_custom_tell_stopped, custom_tell_multi,
        tell_active, custom_tell_active, pushSome, Option.map_none',
        issued_call]

theorem except_map_unit_ok (r : Except Error String) :
    (r.map fun _ => ()) = .ok () ↔ ∃ s, r = .ok s := by
  cases r <;> simp [Except.map]

/-- C9: every unit-returning wrapper (the gid operations via `do_gid`,
`pause_all`, `unpause_all`, `force_pause_all`, `purge_download_result`,
`remove_download_result`, `save_session`, `shutdown`, `force_shutdown`)
decodes the server's reply as a string, discards it, and returns
`Ok(())` exactly when the underlying call resolved successfully; any
failure of the call is propagated unchanged (the wrapper's result is the
call's result with the string payload mapped to unit). -/
theorem c9_unit_wrappers_discard_reply (m gid : String) (t : Option Nat)
    (ext : Nat) (o : Oracle) :
    (do_gid m gid t o).result
      = ((call_and_subscribe decodeString m [Json.str gid] t o).result.map
          fun _ => ())
    ∧ ((do_gid m gid t o).result = .ok ()
        ↔ ∃ s, (call_and_subscribe decodeString m [Json.str gid] t o).result
            = .ok s)
    ∧ remove ext gid o = do_gid "remove" gid (some ext) o
    ∧ pause ext gid o = do_gid "pause" gid (some ext) o
    ∧ unpause gid o = do_gid "unpause" gid none o
    ∧ force_remove gid o = do_gid "forceRemove" gid none o
    ∧ force_pause gid o = do_gid "forcePause" gid none o
    ∧ (pause_all ext o).result
      = ((call_and_subscribe decodeString "pauseAll" [] (some ext) o).result.map
          fun _ => ())
    ∧ (unpause_all o).result
      = ((call_and_subscribe decodeString "unpauseAll" [] none o).result.map
          fun _ => ())
    ∧ (force_pause_all o).result
      = ((call_and_subscribe decodeString "forcePauseAll" [] none o).result.map
          fun _ => ())
    ∧ (purge_download_result o).result
      = ((call_and_subscribe decodeString "purgeDownloadResult" [] none
          o).result.map fun _ => ())
    ∧ (remove_download_result gid o).result
      = ((call_and_subscribe decodeString "removeDownloadResult" [Json.str gid]
          none o).result.map fun _ => ())
    ∧ (save_session o).result
      = ((call_and_subscribe decodeString "saveSession" [] none o).result.map
          fun _ => ())
    ∧ (shutdown ext o).result
      = ((call_and_subscribe decodeString "shutdown" [] (some ext) o).result.map
          fun _ => ())
    ∧ (force_shutdown o).result
      = ((call_and_subscribe decodeString "forceShutdown" [] none o).result.map
          fun _ => ()) :=
  ⟨rfl, except_map_unit_ok _, rfl, rfl, rfl, rfl, rfl, rfl, rfl, rfl, rfl,
   rfl, rfl, rfl, rfl⟩

/-- C10: `change_uri` sends the parameter list
`[gid, file_index, del_uris, add_uris]` with `position` appended only
when supplied, and decodes the reply as an ordered integer pair: the
first component is the reply list's first integer (the number of URIs
deleted) and the second its second (the number of URIs added). -/
theorem c10_change_uri (gid : String) (file_index : Int)
    (del_uris add_uris : List String) (position : Option Int) (d a : Int)
    (o : Oracle) :
    changeUriParams gid file_index del_uris add_uris position
      = [Json.str gid, Json.num file_index,
         Json.arr (del_uris.map Json.str), Json.arr (add_uris.map Json.str)]
        ++ optTail (position.map Json.num)
    ∧ decodeIntPair (Json.arr [Json.num d, Json.num a]) = some (d, a)
    ∧ issuedRequests (change_uri gid file_index del_uris add_uris position
        o).effects
      = [⟨"changeUri",
          changeUriParams gid file_index del_uris add_uris position, none⟩] := by
  refine ⟨?_, rfl, ?_⟩
  · cases position <;> rfl
  · exact issued_call _ _ _ _ _

theorem oneCallNoSub_unitOf (r : WrapperRun String)
    (h : oneCallNoSub r.effects) : oneCallNoSub (unitOf r).effects := h

theorem oneCallNoSub_finishAdd (r : WrapperRun String)
    (hooks : Option TaskHooks) (h : oneCallNoSub r.effects) :
    oneCallNoSub (finishAdd r hooks).effects := by
  obtain ⟨h1, h2⟩ := h
  exact ⟨by rw [numCalls, finishAdd_issued]; exact h1,
         by rw [finishAdd_numSubs]; exact h2⟩

/-- C7: every typed wrapper operation performs exactly one plain call
through the core's single call primitive and neither creates nor
consumes a notification subscription; a subscription is created only by
the separate public primitive `subscribe_notifications`. -/
theorem c7_one_call_no_subscription :
    (∀ (α : Type) (dec : Json → Option α) (o : Oracle),
        oneCallNoSub (get_version dec o).effects)
    ∧ (∀ uris options position hooks (o : Oracle),
        oneCallNoSub (add_uri uris options position hooks o).effects)
    ∧ (∀ torrent uris options position hooks (o : Oracle),
        oneCallNoSub (add_torrent torrent uris options position hooks o).effects)
    ∧ (∀ metalink options position hooks (o : Oracle),
        oneCallNoSub (add_metalink metalink options position hooks o).effects)
    ∧ (∀ m gid t (o : Oracle), oneCallNoSub (do_gid m gid t o).effects)
    ∧ (∀ ext gid (o : Oracle), oneCallNoSub (remove ext gid o).effects)
    ∧ (∀ gid (o : Oracle), oneCallNoSub (force_remove gid o).effects)
    ∧ (∀ ext gid (o : Oracle), oneCallNoSub (pause ext gid o).effects)
    ∧ (∀ ext (o : Oracle), oneCallNoSub (pause_all ext o).effects)
    ∧ (∀ gid (o : Oracle), oneCallNoSub (force_pause gid o).effects)
    ∧ (∀ (o : Oracle), oneCallNoSub (force_pause_all o).effects)
    ∧ (∀ gid (o : Oracle), oneCallNoSub (unpause gid o).effects)
    ∧ (∀ (o : Oracle), oneCallNoSub (unpause_all o).effects)
    ∧ (∀ gid keys (o : Oracle),
        oneCallNoSub (custom_tell_status gid keys o).effects)
    ∧ (∀ (α : Type) (dec : Json → Option α) gid (o : Oracle),
        oneCallNoSub (tell_status dec gid o).effects)
    ∧ (∀ (α : Type) (dec : Json → Option α) gid (o : Oracle),
        oneCallNoSub (get_uris dec gid o).effects)
    ∧ (∀ (α : Type) (dec : Json → Option α) gid (o : Oracle),
        oneCallNoSub (get_files dec gid o).effects)
    ∧ (∀ (α : Type) (dec : Json → Option α) gid (o : Oracle),
        oneCallNoSub (get_peers dec gid o).effects)
    ∧ (∀ (α : Type) (dec : Json → Option α) gid (o : Oracle),
        oneCallNoSub (get_servers dec gid o).effects)
    ∧ (∀ (α : Type) (dec : Json → Option α) (o : Oracle),
        oneCallNoSub (tell_active dec o).effects)
    ∧ (∀ (α : Type) (dec : Json → Option α) offset num (o : Oracle),
        oneCallNoSub (tell_waiting dec offset num o).effects)
    ∧ (∀ (α : Type) (dec : Json → Option α) offset num (o : Oracle),
        oneCallNoSub (tell_stopped dec offset num o).effects)
    ∧ (∀ keys (o : Oracle), oneCallNoSub (custom_tell_active keys o).effects)
    ∧ (∀ m offset num keys (o : Oracle),
        oneCallNoSub (custom_tell_multi m offset num keys o).effects)
    ∧ (∀ offset num keys (o : Oracle),
        oneCallNoSub (custom_tell_waiting offset num keys o).effects)
    ∧ (∀ offset num keys (o : Oracle),
        oneCallNoSub (inner_custom_tell_stopped offset num keys o).effects)
    ∧ (∀ offset num keys (o : Oracle),
        oneCallNoSub (custom_tell_stopped offset num keys o).effects)
    ∧ (∀ gid pos how (o : Oracle),
        oneCallNoSub (change_position gid pos how o).effects)
    ∧ (∀ gid file_index del_uris add_uris position (o : Oracle),
        oneCallNoSub (change_uri gid file_index del_uris add_uris position
          o).effects)
    ∧ (∀ (α : Type) (dec : Json → Option α) gid (o : Oracle),
        oneCallNoSub (get_option dec gid o).effects)
    ∧ (∀ gid options (o : Oracle),
        oneCallNoSub (change_option gid options o).effects)
    ∧ (∀ (α : Type) (dec : Json → Option α) (o : Oracle),
        oneCallNoSub (get_global_option dec o).effects)
    ∧ (∀ options (o : Oracle),
        oneCallNoSub (change_global_option options o).effects)
    ∧ (∀ (α : Type) (dec : Json → Option α) (o : Oracle),
        oneCallNoSub (get_global_stat dec o).effects)
    ∧ (∀ (o : Oracle), oneCallNoSub (purge_download_result o).effects)
    ∧ (∀ gid (o : Oracle), oneCallNoSub (remove_download_result gid o).effects)
    ∧ (∀ (α : Type) (dec : Json → Option α) (o : Oracle),
        oneCallNoSub (get_session_info dec o).effects)
    ∧ (∀ ext (o : Oracle), oneCallNoSub (shutdown ext o).effects)
    ∧ (∀ (o : Oracle), oneCallNoSub (force_shutdown o).effects)
    ∧ (∀ (o : Oracle), oneCallNoSub (save_session o).effects)
    ∧ numCalls subscribe_notifications = 0
    ∧ numSubs subscribe_notifications = 1 := by
  refine ⟨?_, ?_, ?_, ?_, ?_, ?_, ?_, ?_, ?_, ?_, ?_, ?_, ?_, ?_, ?_, ?_, ?_,
    ?_, ?_, ?_, ?_, ?_, ?_, ?_, ?_, ?_, ?_, ?_, ?_, ?_, ?_, ?_, ?_, ?_, ?_,
    ?_, ?_, ?_, ?_, ?_, rfl, rfl⟩ <;> intros <;>
    first
      | exact oneCallNoSub_call _ _ _ _ _
      | exact oneCallNoSub_unitOf _ (oneCallNoSub_call _ _ _ _ _)
      | exact oneCallNoSub_finishAdd _ _ (oneCallNoSub_call _ _ _ _ _)

/-- C3: for `add_uri`, `add_torrent` and `add_metalink`, hook
registration happens only after the call primitive has returned the new
task's gid successfully, and under exactly that gid (the registration
effect follows the call effect in the trace); if the call primitive
fails, no hook registration is performed and the error is returned to
the caller unchanged. -/
theorem c3_hooks_after_gid_only (uris : List String)
    (torrent metalink : List Nat) (turis : Option (List String))
    (options : Option Json) (position : Option Nat)
    (hooks : Option TaskHooks) (oracle : Oracle) :
    (∀ e, oracle ⟨"addUri", addUriParams uris options position, none⟩
        = .error e →
      (add_uri uris options position hooks oracle).result = .error e
      ∧ ∀ g h, Effect.registerHooks g h
          ∉ (add_uri uris options position hooks oracle).effects)
    ∧ (∀ gid h,
        oracle ⟨"addUri", addUriParams uris options position, none⟩
          = .ok (Json.str gid) →
        hooks = some h →
        (add_uri uris options position hooks oracle).result = .ok gid
        ∧ (add_uri uris options position hooks oracle).effects
          = [.call ⟨"addUri", addUriParams uris options position, none⟩,
             .registerHooks gid h])
    ∧ (∀ e, oracle ⟨"addTorrent",
          addTorrentParams torrent turis options position, none⟩ = .error e →
      (add_torrent torrent turis options position hooks oracle).result
          = .error e
      ∧ ∀ g h, Effect.registerHooks g h
          ∉ (add_torrent torrent turis options position hooks oracle).effects)
    ∧ (∀ gid h,
        oracle ⟨"addTorrent", addTorrentParams torrent turis options position,
            none⟩ = .ok (Json.str gid) →
        hooks = some h →
        (add_torrent torrent turis options position hooks oracle).result
          = .ok gid
        ∧ (add_torrent torrent turis options position hooks oracle).effects
          = [.call ⟨"addTorrent",
               addTorrentParams torrent turis options position, none⟩,
             .registerHooks gid h])
    ∧ (∀ e, oracle ⟨"addMetalink",
          addMetalinkParams metalink options position, none⟩ = .error e →
      (add_metalink metalink options position hooks oracle).result = .error e
      ∧ ∀ g h, Effect.registerHooks g h
          ∉ (add_metalink metalink options position hooks oracle).effects)
    ∧ (∀ gid h,
        oracle ⟨"addMetalink", addMetalinkParams metalink options position,
            none⟩ = .ok (Json.str gid) →
        hooks = some h →
        (add_metalink metalink options position hooks oracle).result = .ok gid
        ∧ (add_metalink metalink options position hooks oracle).effects
          = [.call ⟨"addMetalink",
               addMetalinkParams metalink options position, none⟩,
             .registerHooks gid h]) := by
  refine ⟨?_, ?_, ?_, ?_, ?_, ?_⟩
  · intro e he
    refine ⟨?_, ?_⟩ <;>
      simp [add_uri, call_and_subscribe, he, finishAdd]
  · intro gid h he hh
    subst hh
    constructor <;>
      simp [add_uri, call_and_subscribe, he, finishAdd, decodeString,
        set_hooks]
  · intro e he
    refine ⟨?_, ?_⟩ <;>
      simp [add_torrent, call_and_subscribe, he, finishAdd]
  · intro gid h he hh
    subst hh
    constructor <;>
      simp [add_torrent, call_and_subscribe, he, finishAdd, decodeString,
        set_hooks]
  · intro e he
    refine ⟨?_, ?_⟩ <;>
      simp [add_metalink, call_and_subscribe, he, finishAdd]
  · intro gid h he hh
    subst hh
    constructor <;>
      simp [add_metalink, call_and_subscribe, he, finishAdd, decodeString,
        set_hooks]

/-- Witness for C3 at concrete inputs: a failing call returns the error
with no registration; a call returning gid `g1` registers the hooks
under `g1` right after the call. -/
theorem c3_witness :
    ((add_uri ["u"] none none (some ⟨some 0, some 1⟩)
        fun _ => .error .timedOut).result = .error .timedOut)
    ∧ (add_uri ["u"] none none (some ⟨some 0, some 1⟩)
        fun _ => .ok (Json.str "g1")).effects
      = [.call ⟨"addUri", addUriParams ["u"] none none, none⟩,
         .registerHooks "g1" ⟨some 0, some 1⟩] :=
  ⟨((c3_hooks_after_gid_only ["u"] [] [] none none none (some ⟨some 0, some 1⟩)
      fun _ => .error .timedOut).1 .timedOut rfl).1,
   ((c3_hooks_after_gid_only ["u"] [] [] none none none (some ⟨some 0, some 1⟩)
      fun _ => .ok (Json.str "g1")).2.1 "g1" ⟨some 0, some 1⟩ rfl rfl).2⟩

/-! ## Registry theorems -/

theorem initReg_inv : RegInv initReg :=
  ⟨fun i h => absurd h (List.not_mem_nil i),
   fun p h => absurd h (List.not_mem_nil p),
   List.nodup_nil, List.nodup_nil,
   fun i h => absurd h (List.not_mem_nil i)⟩

theorem resolveId_inv (s : RegState) (i : Nat) (o : Outcome) (h : RegInv s) :
    RegInv (resolveId s i o) := by
  unfold resolveId
  split
  next hmem =>
    obtain ⟨h1, h2, h3, h4, h5⟩ := h
    refine ⟨?_, ?_, ?_, ?_, ?_⟩
    · intro j hj
      exact h1 j (List.mem_of_mem_filter hj)
    · intro p hp
      rcases List.mem_cons.mp hp with rfl | hp
      · exact h1 i hmem
      · exact h2 p hp
    · exact h3.filter _
    · simp only [List.map_cons]
      exact List.nodup_cons.mpr ⟨h5 i hmem, h4⟩
    · intro j hj
      have hj2 := List.mem_filter.mp hj
      have hne : j ≠ i := by simpa using hj2.2
      simp only [List.map_cons, List.mem_cons]
      push_neg
      exact ⟨hne, h5 j hj2.1⟩
  next => exact h

theorem regStep_inv (s : RegState) (e : RegEvent) (h : RegInv s) :
    RegInv (regStep s e) := by
  cases e with
  | issue =>
    obtain ⟨h1, h2, h3, h4, h5⟩ := h
    refine ⟨?_, ?_, ?_, ?_, ?_⟩
    · intro j hj
      rcases List.mem_cons.mp hj with rfl | hj
      · exact Nat.lt_succ_self _
      · exact Nat.lt_succ_of_lt (h1 j hj)
    · intro p hp
      exact Nat.lt_succ_of_lt (h2 p hp)
    · refine List.nodup_cons.mpr ⟨?_, h3⟩
      intro hmem
      exact absurd (h1 _ hmem) (Nat.lt_irrefl _)
    · exact h4
    · intro j hj
      rcases List.mem_cons.mp hj with rfl | hj
      · intro hmem
        rcases List.mem_map.mp hmem with ⟨p, hp, hpe⟩
        have := h2 p hp
        omega
      · exact h5 j hj
  | reply i v => exact resolveId_inv s i _ h
  | replyErr i c m => exact resolveId_inv s i _ h
  | timeoutFire i => exact resolveId_inv s i _ h
  | close =>
    obtain ⟨h1, h2, h3, h4, h5⟩ := h
    refine ⟨?_, ?_, ?_, ?_, ?_⟩
    · intro j hj
      cases hj
    · intro p hp
      rcases List.mem_append.mp hp with hp | hp
      · rcases List.mem_map.mp hp with ⟨j, hj, rfl⟩
        exact h1 j hj
      · exact h2 p hp
    · exact List.nodup_nil
    · show (((s.pending.map fun i => (i, Outcome.closed))
          ++ s.resolved).map Prod.fst).Nodup
      rw [List.map_append, List.map_map]
      have hid :
          s.pending.map (Prod.fst ∘ fun i => (i, Outcome.closed))
            = s.pending := by
        induction s.pending with
        | nil => rfl
        | cons a l ih => simpa using ih
      rw [hid]
      exact List.Nodup.append h3 h4 (fun a ha hb => h5 a ha hb)
    · intro j hj
      cases hj

theorem regRun_inv (es : List RegEvent) (s : RegState) (h : RegInv s) :
    RegInv (regRun es s) := by
  induction es generalizing s with
  | nil => exact h
  | cons e es ih => exact ih (regStep s e) (regStep_inv s e h)

theorem outcomeFrom_mono (es es2 : List RegEvent) (i : Nat) (o : Outcome)
    (h : outcomeFrom es i o) : outcomeFrom (es ++ es2) i o := by
  cases o <;> exact List.mem_append_left _ h

theorem resolveId_prov (s : RegState) (j : Nat) (o' : Outcome)
    (es : List RegEvent) (e : RegEvent)
    (h : ∀ i o, (i, o) ∈ s.resolved → outcomeFrom es i o)
    (he : outcomeFrom (es ++ [e]) j o') :
    ∀ i o, (i, o) ∈ (resolveId s j o').resolved →
      outcomeFrom (es ++ [e]) i o := by
  intro i o hmem
  unfold resolveId at hmem
  split at hmem
  · rcases List.mem_cons.mp hmem with hc | hmem
    · injection hc with hi ho
      subst hi
      subst ho
      exact he
    · exact outcomeFrom_mono _ _ _ _ (h i o hmem)
  · exact outcomeFrom_mono _ _ _ _ (h i o hmem)

theorem regStep_prov (s : RegState) (e : RegEvent) (es : List RegEvent)
    (h : ∀ i o, (i, o) ∈ s.resolved → outcomeFrom es i o) :
    ∀ i o, (i, o) ∈ (regStep s e).resolved → outcomeFrom (es ++ [e]) i o := by
  cases e with
  | issue => exact fun i o hm => outcomeFrom_mono _ _ _ _ (h i o hm)
  | reply j v =>
    refine resolveId_prov s j _ es _ h ?_
    show RegEvent.reply j v ∈ es ++ [RegEvent.reply j v]
    exact List.mem_append_right _ (List.mem_singleton.mpr rfl)
  | replyErr j c m =>
    refine resolveId_prov s j _ es _ h ?_
    show RegEvent.replyErr j c m ∈ es ++ [RegEvent.replyErr j c m]
    exact List.mem_append_right _ (List.mem_singleton.mpr rfl)
  | timeoutFire j =>
    refine resolveId_prov s j _ es _ h ?_
    show RegEvent.timeoutFire j ∈ es ++ [RegEvent.timeoutFire j]
    exact List.mem_append_right _ (List.mem_singleton.mpr rfl)
  | close =>
    intro i o hmem
    rcases List.mem_append.mp hmem with hm | hm
    · rcases List.mem_map.mp hm with ⟨j, hj, hje⟩
      injection hje with hi ho
      subst hi
      subst ho
      show RegEvent.close ∈ es ++ [RegEvent.close]
      exact List.mem_append_right _ (List.mem_singleton.mpr rfl)
    · exact outcomeFrom_mono _ _ _ _ (h i o hm)

theorem regRun_prov (es : List RegEvent) (s : RegState) (pre : List RegEvent)
    (h : ∀ i o, (i, o) ∈ s.resolved → outcomeFrom pre i o) :
    ∀ i o, (i, o) ∈ (regRun es s).resolved → outcomeFrom (pre ++ es) i o := by
  induction es generalizing s pre with
  | nil =>
    intro i o hm
    rw [List.append_nil]
    exact h i o hm
  | cons e es ih =>
    intro i o hm
    have hstep := regStep_prov s e pre h
    have hrec := ih (regStep s e) (pre ++ [e]) hstep i o hm
    rw [List.append_assoc] at hrec
    exact hrec

/-- C1: over every sequence of registry events (issues, replies in any
wire order, timeouts, closure), each issued call resolves at most once
(the resolved identifiers are distinct), every recorded outcome is the
one carried by an event bearing that call's own identifier — a reply
payload, a timeout failure, or the connection-closed failure — and
closing the connection resolves every still-pending call with the
connection-closed failure; hence no call ever receives another call's
outcome, regardless of reply arrival order. -/
theorem c1_calls_resolve_once_with_own_outcome (es : List RegEvent) :
    ((regRun es initReg).resolved.map Prod.fst).Nodup
    ∧ (∀ i o, (i, o) ∈ (regRun es initReg).resolved → outcomeFrom es i o)
    ∧ (∀ i ∈ (regRun es initReg).pending,
        (i, Outcome.closed)
          ∈ (regStep (regRun es initReg) RegEvent.close).resolved) := by
  refine ⟨?_, ?_, ?_⟩
  · exact (regRun_inv es initReg initReg_inv).2.2.2.1
  · intro i o hm
    have h0 : ∀ i o, (i, o) ∈ initReg.resolved → outcomeFrom [] i o :=
      fun i o hm => absurd hm (List.not_mem_nil _)
    have := regRun_prov es initReg [] h0 i o hm
    rwa [List.nil_append] at this
  · intro i hi
    exact List.mem_append_left _ (List.mem_map.mpr ⟨i, hi, rfl⟩)

/-- Witness for C1: two calls are issued and their replies arrive in
reversed wire order; identifier 1 still receives exactly the payload of
the reply bearing identifier 1, and a call left pending is resolved as
closed by the closure transition. -/
theorem c1_witness :
    RegEvent.reply 1 (Json.str "b")
      ∈ [RegEvent.issue, RegEvent.issue, RegEvent.reply 1 (Json.str "b"),
         RegEvent.reply 0 (Json.str "a")]
    ∧ (1, Outcome.closed)
      ∈ (regStep (regRun [RegEvent.issue, RegEvent.issue,
          RegEvent.reply 0 (Json.str "a")] initReg) RegEvent.close).resolved :=
  ⟨(c1_calls_resolve_once_with_own_outcome
      [RegEvent.issue, RegEvent.issue, RegEvent.reply 1 (Json.str "b"),
       RegEvent.reply 0 (Json.str "a")]).2.1 1 (Outcome.reply (Json.str "b"))
      (by simp [regRun, regStep, resolveId, initReg]),
   (c1_calls_resolve_once_with_own_outcome
      [RegEvent.issue, RegEvent.issue,
       RegEvent.reply 0 (Json.str "a")]).2.2 1
      (by simp [regRun, regStep, resolveId, initReg])⟩

/-- C5: a reply whose identifier has no registered pending call (for
example because the caller's timeout already evicted it) is silently
discarded by the reader loop: the registry state — every live pending
call and the resolution log — is unchanged and no notification is
published to any subscriber. -/
theorem c5_unmatched_reply_discarded (s : RegState) (i : Nat) (v : Json)
    (h : i ∉ s.pending) :
    readerStep s (.replyMsg i v) = (s, []) := by
  simp [readerStep, resolveId, h]

/-- Witness for C5: a late reply for the already-evicted identifier 5
leaves a registry with pending call 0 and resolved call 1 untouched and
publishes nothing. -/
theorem c5_witness :
    readerStep ⟨2, [0], [(1, Outcome.timedOut)]⟩
        (InMsg.replyMsg 5 (Json.str "late"))
      = (⟨2, [0], [(1, Outcome.timedOut)]⟩, []) :=
  c5_unmatched_reply_discarded _ 5 _ (by decide)

/-! ## Hook manager theorems -/

theorem filter_ne_filter_eq_self (g : String)
    (l : List (String × TaskHooks)) :
    ((l.filter fun p => p.1 ≠ g).filter fun p => p.1 = g).length = 0 := by
  rw [List.filter_eq_nil_iff.mpr]
  · rfl
  · intro p hp
    have := (List.mem_filter.mp hp).2
    simpa using this

theorem filter_ne_filter_other (g g' : String) (hne : g ≠ g')
    (l : List (String × TaskHooks)) :
    ((l.filter fun p => p.1 ≠ g').filter fun p => p.1 = g).length
      = (l.filter fun p => p.1 = g).length := by
  induction l with
  | nil => rfl
  | cons a l ih =>
    by_cases ha' : a.1 = g'
    · have hag : ¬a.1 = g := fun hx => hne (hx.symm.trans ha')
      have e1 : (a :: l).filter (fun p => p.1 ≠ g')
          = l.filter (fun p => p.1 ≠ g') := by
        rw [List.filter_cons, if_neg]
        simp [ha']
      have e2 : (a :: l).filter (fun p => p.1 = g)
          = l.filter (fun p => p.1 = g) := by
        rw [List.filter_cons, if_neg]
        simp [hag]
      rw [e1, e2]
      exact ih
    · have e1 : (a :: l).filter (fun p => p.1 ≠ g')
          = a :: l.filter (fun p => p.1 ≠ g') := by
        rw [List.filter_cons, if_pos]
        simpa using ha'
      rw [e1]
      by_cases hag : a.1 = g
      · have e2 : ∀ m : List (String × TaskHooks),
            (a :: m).filter (fun p => p.1 = g)
              = a :: m.filter (fun p => p.1 = g) := by
          intro m
          rw [List.filter_cons, if_pos]
          simpa using hag
        rw [e2, e2, List.length_cons, List.length_cons, ih]
      · have e2 : ∀ m : List (String × TaskHooks),
            (a :: m).filter (fun p => p.1 = g)
              = m.filter (fun p => p.1 = g) := by
          intro m
          rw [List.filter_cons, if_neg]
          simp [hag]
        rw [e2, e2, ih]

theorem lookup_mem_count (g : String) (l : List (String × TaskHooks))
    (hk : TaskHooks) (hl : l.lookup g = some hk) :
    1 ≤ (l.filter fun p => p.1 = g).length := by
  induction l with
  | nil => exact absurd hl (by simp)
  | cons a l ih =>
    obtain ⟨k, b⟩ := a
    by_cases hkg : k = g
    · subst hkg
      simp [List.filter_cons]
    · have hbk : (g == k) = false :=
        beq_false_of_ne (fun hx => hkg hx.symm)
      rw [List.lookup] at hl
      rw [hbk] at hl
      have := ih hl
      simpa [List.filter_cons, hkg] using this

theorem fireTail_count (g g' : String) (c : Option Nat) :
    (((match c with | some c => [(g', c)] | none => []) :
        List (String × Nat)).filter fun p => p.1 = g).length
      ≤ if g = g' then 1 else 0 := by
  cases c with
  | none => simp
  | some c =>
    by_cases heq : g = g'
    · subst heq
      simp [List.filter_cons]
    · have hgg : g' ≠ g := fun hx => heq hx.symm
      simp [List.filter_cons, heq, hgg]

theorem fire_measure (g g' : String) (s : HookState)
    (tail : List (String × Nat))
    (htail : (tail.filter fun p => p.1 = g).length ≤ if g = g' then 1 else 0)
    (hcnt : 1 ≤ liveCount g' s) :
    firedCount g ⟨s.hooks.filter fun p => p.1 ≠ g', s.fired ++ tail⟩
      + liveCount g ⟨s.hooks.filter fun p => p.1 ≠ g', s.fired ++ tail⟩
      ≤ firedCount g s + liveCount g s := by
  unfold firedCount liveCount at *
  simp only [List.filter_append, List.length_append]
  by_cases heq : g = g'
  · subst heq
    rw [filter_ne_filter_eq_self]
    rw [if_pos rfl] at htail
    omega
  · rw [filter_ne_filter_other g g' heq]
    rw [if_neg heq] at htail
    omega

theorem hookStep_measure (s : HookState) (n : Notification) (g : String) :
    firedCount g (hookStep s n) + liveCount g (hookStep s n)
      ≤ firedCount g s + liveCount g s := by
  cases hg : notifGid n.params with
  | none =>
    have hstep : hookStep s n = s := by simp [hookStep, hg]
    rw [hstep]
  | some g' =>
    cases hl : s.hooks.lookup g' with
    | none =>
      have hstep : hookStep s n = s := by simp [hookStep, hg, hl]
      rw [hstep]
    | some hk =>
      have hcnt := lookup_mem_count g' s.hooks hk hl
      by_cases hs : n.method ∈ successMethods
      · have hstep : hookStep s n
            = ⟨s.hooks.filter fun p => p.1 ≠ g',
               s.fired ++ (match hk.on_complete with
                           | some c => [(g', c)]
                           | none => [])⟩ := by
          simp [hookStep, hg, hl, hs]
        rw [hstep]
        exact fire_measure g g' s _ (fireTail_count g g' hk.on_complete) hcnt
      · by_cases herr : n.method ∈ errorMethods
        · have hstep : hookStep s n
              = ⟨s.hooks.filter fun p => p.1 ≠ g',
                 s.fired ++ (match hk.on_error with
                             | some c => [(g', c)]
                             | none => [])⟩ := by
            simp [hookStep, hg, hl, hs, herr]
          rw [hstep]
          exact fire_measure g g' s _ (fireTail_count g g' hk.on_error) hcnt
        · have hstep : hookStep s n = s := by
            simp [hookStep, hg, hl, hs, herr]
          rw [hstep]

theorem hookRun_measure (ns : List Notification) (s : HookState) (g : String) :
    firedCount g (hookRun ns s) + liveCount g (hookRun ns s)
      ≤ firedCount g s + liveCount g s := by
  induction ns generalizing s with
  | nil => exact le_refl _
  | cons n ns ih => exact le_trans (ih (hookStep s n)) (hookStep_measure s n g)

/-- C4: for a hook registration with both callbacks set, at most one of
the two callbacks ever fires over any sequence of observed
notifications — even if both a success-class and an error-class terminal
event are seen for the same task identifier; the first terminal event
fires the matching callback and removes the registration, and once no
registration for the identifier is live a step fires nothing for it. -/
theorem c4_hooks_fire_at_most_once (g : String) (hk : TaskHooks) (c e : Nat)
    (ns : List Notification) (n : Notification) (s : HookState)
    (hc : hk.on_complete = some c) (he : hk.on_error = some e) :
    firedCount g (hookRun ns ⟨[(g, hk)], []⟩) ≤ 1
    ∧ (liveCount g s = 0 →
        firedCount g (hookStep s n) = firedCount g s
        ∧ liveCount g (hookStep s n) = 0)
    ∧ (notifGid n.params = some g → n.method ∈ successMethods →
        hookStep ⟨[(g, hk)], []⟩ n = ⟨[], [(g, c)]⟩)
    ∧ (notifGid n.params = some g → n.method ∉ successMethods →
        n.method ∈ errorMethods →
        hookStep ⟨[(g, hk)], []⟩ n = ⟨[], [(g, e)]⟩) := by
  refine ⟨?_, ?_, ?_, ?_⟩
  · have hm := hookRun_measure ns ⟨[(g, hk)], []⟩ g
    have h0 : firedCount g ⟨[(g, hk)], []⟩ = 0 := rfl
    have h1 : liveCount g ⟨[(g, hk)], []⟩ = 1 := by
      simp [liveCount, List.filter_cons]
    omega
  · intro hlive
    cases hg : notifGid n.params with
    | none =>
      have hstep : hookStep s n = s := by simp [hookStep, hg]
      rw [hstep]
      exact ⟨rfl, hlive⟩
    | some g' =>
      cases hl : s.hooks.lookup g' with
      | none =>
        have hstep : hookStep s n = s := by simp [hookStep, hg, hl]
        rw [hstep]
        exact ⟨rfl, hlive⟩
      | some hk' =>
        have hcnt := lookup_mem_count g' s.hooks hk' hl
        have hne : g ≠ g' := by
          intro heq
          subst heq
          unfold liveCount at hlive
          omega
        have htailz : ∀ c' : Option Nat,
            (((match c' with | some c' => [(g', c')] | none => []) :
                List (String × Nat)).filter fun p => p.1 = g).length
              = 0 := by
          intro c'
          have := fireTail_count g g' c'
          rw [if_neg hne] at this
          omega
        by_cases hs : n.method ∈ successMethods
        · have hstep : hookStep s n
              = ⟨s.hooks.filter fun p => p.1 ≠ g',
                 s.fired ++ (match hk'.on_complete with
                             | some c' => [(g', c')]
                             | none => [])⟩ := by
            simp [hookStep, hg, hl, hs]
          rw [hstep]
          refine ⟨?_, ?_⟩
          · simp [firedCount, List.filter_append, htailz]
          · unfold liveCount at hlive ⊢
            show (((s.hooks.filter fun p => p.1 ≠ g').filter
                fun p => p.1 = g).length) = 0
            rw [filter_ne_filter_other g g' hne]
            exact hlive
        · by_cases herr : n.method ∈ errorMethods
          · have hstep : hookStep s n
                = ⟨s.hooks.filter fun p => p.1 ≠ g',
                   s.fired ++ (match hk'.on_error with
                               | some c' => [(g', c')]
                               | none => [])⟩ := by
              simp [hookStep, hg, hl, hs, herr]
            rw [hstep]
            refine ⟨?_, ?_⟩
            · simp [firedCount, List.filter_append, htailz]
            · unfold liveCount at hlive ⊢
              show (((s.hooks.filter fun p => p.1 ≠ g').filter
                  fun p => p.1 = g).length) = 0
              rw [filter_ne_filter_other g g' hne]
              exact hlive
          · have hstep : hookStep s n = s := by
              simp [hookStep, hg, hl, hs, herr]
            rw [hstep]
            exact ⟨rfl, hlive⟩
  · intro hg hs
    simp [hookStep, hg, hs, hc, List.lookup, List.filter_cons]
  · intro hg hs herr
    simp [hookStep, hg, hs, herr, he, List.lookup, List.filter_cons]

/-- Witness for C4: a registration for `gid1` with both callbacks set
observes a completion event and then an error event for `gid1`; at most
one callback invocation is recorded, and the single completion event
fires on-complete and removes the registration. -/
theorem c4_witness :
    firedCount "gid1"
      (hookRun
        [⟨"aria2.onDownloadComplete",
          Json.arr [Json.obj [("gid", Json.str "gid1")]]⟩,
         ⟨"aria2.onDownloadError",
          Json.arr [Json.obj [("gid", Json.str "gid1")]]⟩]
        ⟨[("gid1", ⟨some 0, some 1⟩)], []⟩) ≤ 1
    ∧ hookStep ⟨[("gid1", ⟨some 0, some 1⟩)], []⟩
        ⟨"aria2.onDownloadComplete",
         Json.arr [Json.obj [("gid", Json.str "gid1")]]⟩
      = ⟨[], [("gid1", 0)]⟩ :=
  ⟨(c4_hooks_fire_at_most_once "gid1" ⟨some 0, some 1⟩ 0 1
      [⟨"aria2.onDownloadComplete",
        Json.arr [Json.obj [("gid", Json.str "gid1")]]⟩,
       ⟨"aria2.onDownloadError",
        Json.arr [Json.obj [("gid", Json.str "gid1")]]⟩]
      ⟨"aria2.onDownloadComplete",
       Json.arr [Json.obj [("gid", Json.str "gid1")]]⟩
      ⟨[("gid1", ⟨some 0, some 1⟩)], []⟩ rfl rfl).1,
   (c4_hooks_fire_at_most_once "gid1" ⟨some 0, some 1⟩ 0 1 []
      ⟨"aria2.onDownloadComplete",
       Json.arr [Json.obj [("gid", Json.str "gid1")]]⟩
      ⟨[("gid1", ⟨some 0, some 1⟩)], []⟩ rfl rfl).2.2.1 rfl (by decide)⟩

end Aria2
